import Mathlib

/-!
# sun8i display-mixer layers (`drivers/gpu/drm/sun4i/sun8i_layer.c`)

A shallow embedding of the layer registry (`sun8i_layers_init`,
`sun8i_layer_init_one`) and of the per-layer admission and update callbacks
(`sun8i_mixer_layer_atomic_check`, `..._atomic_disable`, `..._atomic_update`),
followed by the properties the specification states about them.

Conventions of the embedding:
* a C function returning `0` or a negative error number returns
  `Except Errno Unit`; a pointer that may be an `ERR_PTR` is `Except Errno _`;
* objects reached through pointers and written by a function are passed in and
  handed back (state passing);
* what the file calls but does not define (host DRM functions, mixer register
  programming) is either a parameter or a definition marked
  "Modelled from the spec".
-/

namespace Sun8iLayer

/-! ## Host vocabulary -/

/-- Error numbers (`-EINVAL`, `-ENOMEM`, ...). Only their identity matters here; the
numeric values live in the host's errno headers. -/
inductive Errno
  | EINVAL
  | ENOMEM
  | ERANGE
  | other (code : Nat)
deriving DecidableEq, Repr

/-- The `DRM_FORMAT_*` fourcc names used by the two format tables, together with the
opaque (`X`) counterparts of the 16-bit alpha formats, which the tables leave out. -/
inductive drm_format
  | DRM_FORMAT_ABGR1555 | DRM_FORMAT_ABGR4444 | DRM_FORMAT_ABGR8888
  | DRM_FORMAT_ARGB1555 | DRM_FORMAT_ARGB4444 | DRM_FORMAT_ARGB8888
  | DRM_FORMAT_BGR565 | DRM_FORMAT_BGR888
  | DRM_FORMAT_BGRA5551 | DRM_FORMAT_BGRA4444 | DRM_FORMAT_BGRA8888
  | DRM_FORMAT_BGRX8888
  | DRM_FORMAT_RGB565 | DRM_FORMAT_RGB888
  | DRM_FORMAT_RGBA4444 | DRM_FORMAT_RGBA5551 | DRM_FORMAT_RGBA8888
  | DRM_FORMAT_RGBX8888 | DRM_FORMAT_XBGR8888 | DRM_FORMAT_XRGB8888
  | DRM_FORMAT_NV16 | DRM_FORMAT_NV12 | DRM_FORMAT_NV21 | DRM_FORMAT_NV61
  | DRM_FORMAT_UYVY | DRM_FORMAT_VYUY | DRM_FORMAT_YUYV | DRM_FORMAT_YVYU
  | DRM_FORMAT_YUV411 | DRM_FORMAT_YUV420 | DRM_FORMAT_YUV422 | DRM_FORMAT_YUV444
  | DRM_FORMAT_YVU411 | DRM_FORMAT_YVU420 | DRM_FORMAT_YVU422 | DRM_FORMAT_YVU444
  | DRM_FORMAT_XBGR1555 | DRM_FORMAT_XBGR4444
  | DRM_FORMAT_XRGB1555 | DRM_FORMAT_XRGB4444
  | DRM_FORMAT_BGRX5551 | DRM_FORMAT_BGRX4444
  | DRM_FORMAT_RGBX4444 | DRM_FORMAT_RGBX5551
deriving DecidableEq, Repr

open drm_format

/-- The table `sun8i_mixer_ui_layer_formats`, entry by entry. -/
def sun8i_mixer_ui_layer_formats : List drm_format :=
  [ DRM_FORMAT_ABGR1555,
    DRM_FORMAT_ABGR4444,
    DRM_FORMAT_ABGR8888,
    DRM_FORMAT_ARGB1555,
    DRM_FORMAT_ARGB4444,
    DRM_FORMAT_ARGB8888,
    DRM_FORMAT_BGR565,
    DRM_FORMAT_BGR888,
    DRM_FORMAT_BGRA5551,
    DRM_FORMAT_BGRA4444,
    DRM_FORMAT_BGRA8888,
    DRM_FORMAT_BGRX8888,
    DRM_FORMAT_RGB565,
    DRM_FORMAT_RGB888,
    DRM_FORMAT_RGBA4444,
    DRM_FORMAT_RGBA5551,
    DRM_FORMAT_RGBA8888,
    DRM_FORMAT_RGBX8888,
    DRM_FORMAT_XBGR8888,
    DRM_FORMAT_XRGB8888 ]

/-- The table `sun8i_mixer_vi_layer_formats`, entry by entry: the RGB block, then the
YUV block. -/
def sun8i_mixer_vi_layer_formats : List drm_format :=
  [ DRM_FORMAT_ABGR1555,
    DRM_FORMAT_ABGR4444,
    DRM_FORMAT_ARGB1555,
    DRM_FORMAT_ARGB4444,
    DRM_FORMAT_BGR565,
    DRM_FORMAT_BGR888,
    DRM_FORMAT_BGRA5551,
    DRM_FORMAT_BGRA4444,
    DRM_FORMAT_BGRX8888,
    DRM_FORMAT_RGB565,
    DRM_FORMAT_RGB888,
    DRM_FORMAT_RGBA4444,
    DRM_FORMAT_RGBA5551,
    DRM_FORMAT_RGBX8888,
    DRM_FORMAT_XBGR8888,
    DRM_FORMAT_XRGB8888,

    DRM_FORMAT_NV16,
    DRM_FORMAT_NV12,
    DRM_FORMAT_NV21,
    DRM_FORMAT_NV61,
    DRM_FORMAT_UYVY,
    DRM_FORMAT_VYUY,
    DRM_FORMAT_YUYV,
    DRM_FORMAT_YVYU,
    DRM_FORMAT_YUV411,
    DRM_FORMAT_YUV420,
    DRM_FORMAT_YUV422,
    DRM_FORMAT_YUV444,
    DRM_FORMAT_YVU411,
    DRM_FORMAT_YVU420,
    DRM_FORMAT_YVU422,
    DRM_FORMAT_YVU444 ]

/-- The opaque counterpart of a format with an alpha channel: the same component
layout with `X` (ignored bits) where the alpha bits were. `none` for a format that has
no alpha channel. Read off the fourcc names. -/
def opaque_analog : drm_format → Option drm_format
  | DRM_FORMAT_ABGR1555 => some DRM_FORMAT_XBGR1555
  | DRM_FORMAT_ABGR4444 => some DRM_FORMAT_XBGR4444
  | DRM_FORMAT_ABGR8888 => some DRM_FORMAT_XBGR8888
  | DRM_FORMAT_ARGB1555 => some DRM_FORMAT_XRGB1555
  | DRM_FORMAT_ARGB4444 => some DRM_FORMAT_XRGB4444
  | DRM_FORMAT_ARGB8888 => some DRM_FORMAT_XRGB8888
  | DRM_FORMAT_BGRA5551 => some DRM_FORMAT_BGRX5551
  | DRM_FORMAT_BGRA4444 => some DRM_FORMAT_BGRX4444
  | DRM_FORMAT_BGRA8888 => some DRM_FORMAT_BGRX8888
  | DRM_FORMAT_RGBA4444 => some DRM_FORMAT_RGBX4444
  | DRM_FORMAT_RGBA5551 => some DRM_FORMAT_RGBX5551
  | DRM_FORMAT_RGBA8888 => some DRM_FORMAT_RGBX8888
  | _ => none

/-- A format has an alpha channel when its name carries an `A` component. -/
def has_alpha (f : drm_format) : Bool := (opaque_analog f).isSome

/-- The YUV formats (semi-planar `NV*`, packed `*YUV*`, planar `YUV*`/`YVU*`). -/
def is_yuv : drm_format → Bool
  | DRM_FORMAT_NV16 | DRM_FORMAT_NV12 | DRM_FORMAT_NV21 | DRM_FORMAT_NV61
  | DRM_FORMAT_UYVY | DRM_FORMAT_VYUY | DRM_FORMAT_YUYV | DRM_FORMAT_YVYU
  | DRM_FORMAT_YUV411 | DRM_FORMAT_YUV420 | DRM_FORMAT_YUV422 | DRM_FORMAT_YUV444
  | DRM_FORMAT_YVU411 | DRM_FORMAT_YVU420 | DRM_FORMAT_YVU422 | DRM_FORMAT_YVU444 => true
  | _ => false

/-- Every other format of the enumeration is an RGB format. -/
def is_rgb (f : drm_format) : Bool := !is_yuv f

/-! ## Data model -/

/-- `struct drm_rect`: a rectangle given by two corners. -/
structure drm_rect where
  x1 : Int
  y1 : Int
  x2 : Int
  y2 : Int
deriving DecidableEq, Repr

/-- The fields of the output's adjusted display mode that the check reads. -/
structure drm_display_mode where
  hdisplay : Int
  vdisplay : Int
deriving DecidableEq, Repr

/-- The state of an output (CRTC) inside a transaction. -/
structure drm_crtc_state where
  adjusted_mode : drm_display_mode
deriving DecidableEq, Repr

/-- An output (CRTC), identified by its index. -/
structure drm_crtc where
  index : Nat
deriving DecidableEq, Repr

/-- A transaction (`struct drm_atomic_state`): the output states that are part of it. -/
structure drm_atomic_state where
  crtc_states : List (drm_crtc × drm_crtc_state)
deriving DecidableEq, Repr

/-- Modelled from the spec: the host's lookup `drm_atomic_get_existing_crtc_state`,
which is defined in the host's headers. It hands back the state of the given output
when the transaction holds one ("target-surface geometry query") and nothing (NULL)
otherwise. -/
def drm_atomic_get_existing_crtc_state (state : drm_atomic_state) (crtc : drm_crtc) :
    Option drm_crtc_state :=
  (state.crtc_states.find? (fun e => e.1 = crtc)).map (fun e => e.2)

/-- A rectangle of a proposed plane state: a position and non-negative extents. -/
structure plane_rect where
  x : Int
  y : Int
  w : Nat
  h : Nat
deriving DecidableEq, Repr

/-- A proposed plane state (`struct drm_plane_state`): the target output (`crtc`, NULL
when none), the transaction it belongs to (`state`), and, as the specification lists
them, the source crop, the destination rectangle, the pixel format, the buffer
reference and the visibility flag. -/
structure drm_plane_state where
  crtc : Option drm_crtc
  state : drm_atomic_state
  src : plane_rect
  dst : plane_rect
  format : drm_format
  fb : Option Nat
  visible : Bool
deriving DecidableEq, Repr

/-- The plane type tags of the host (`enum drm_plane_type`). -/
inductive drm_plane_type
  | DRM_PLANE_TYPE_OVERLAY
  | DRM_PLANE_TYPE_PRIMARY
  | DRM_PLANE_TYPE_CURSOR
deriving DecidableEq, Repr

open drm_plane_type

/-- The callback tables a plane can be given with `drm_plane_helper_add`. -/
inductive plane_helper_funcs
  | sun8i_mixer_layer_helper_funcs
deriving DecidableEq, Repr

/-- The host's plane object (`struct drm_plane`), as far as this file sets or reads it:
what `drm_universal_plane_init` stores, the immutable zpos property, the helper table,
and the current state (`plane->state`, NULL until the host sets one). -/
structure drm_plane where
  possible_crtcs : Nat
  format_types : List drm_format
  type : drm_plane_type
  zpos : Option Nat
  helper_private : Option plane_helper_funcs
  state : Option drm_plane_state
deriving DecidableEq, Repr

/-- The per-SoC mixer configuration (`mixer->cfg`): the number of video and of UI
channels and the bitmask of the layers that have a scaler. -/
structure sun8i_mixer_cfg where
  vi_num : Nat
  ui_num : Nat
  scaler_mask : Nat
deriving DecidableEq, Repr

/-- One call into the mixer's register programming, with its `layer` argument. -/
inductive mixer_call
  | layer_enable (layer : Nat) (en : Bool)
  | update_vi_layer_coord (layer : Nat)
  | update_vi_layer_formats (layer : Nat)
  | update_vi_layer_buffer (layer : Nat)
  | update_ui_layer_coord (layer : Nat)
  | update_ui_layer_formats (layer : Nat)
  | update_ui_layer_buffer (layer : Nat)
deriving DecidableEq, Repr

/-- The mixer: its configuration, and the hardware side as this file sees it, namely
the layers whose enable bit is set and the programming calls issued so far (oldest
first). -/
structure sun8i_mixer where
  cfg : sun8i_mixer_cfg
  enabled : List Nat
  calls : List mixer_call
deriving DecidableEq, Repr

/-- The driver's layer (`struct sun8i_layer`): the embedded host plane, the mixer it
belongs to and its hardware index. -/
structure sun8i_layer where
  plane : drm_plane
  mixer : sun8i_mixer
  id : Nat
deriving DecidableEq, Repr

/-- The layer's hardware enable bit, as mirrored by the mixer. -/
def sun8i_layer.is_enabled (layer : sun8i_layer) : Bool :=
  decide (layer.id ∈ layer.mixer.enabled)

/-! ## Mixer register programming (defined in the mixer's own source file) -/

/-- Modelled from the spec: `sun8i_mixer_layer_enable`, which lives with the mixer
code. It "writes the hardware layer-on/off bit" of the given layer and changes nothing
else; the call is recorded. -/
def sun8i_mixer_layer_enable (mixer : sun8i_mixer) (layer : Nat) (en : Bool) :
    sun8i_mixer :=
  { mixer with
    enabled := if en then layer :: mixer.enabled.filter (fun l => l ≠ layer)
               else mixer.enabled.filter (fun l => l ≠ layer)
    calls := mixer.calls ++ [mixer_call.layer_enable layer en] }

/-- Modelled from the spec: `sun8i_mixer_update_vi_layer_coord` (mixer code) programs
the coordinate registers in the Video layout; enable bits are left alone. -/
def sun8i_mixer_update_vi_layer_coord (mixer : sun8i_mixer) (layer : Nat)
    (_plane : drm_plane) : sun8i_mixer :=
  { mixer with calls := mixer.calls ++ [mixer_call.update_vi_layer_coord layer] }

/-- Modelled from the spec: `sun8i_mixer_update_vi_layer_formats` (mixer code) programs
the pixel-format registers in the Video layout; enable bits are left alone. -/
def sun8i_mixer_update_vi_layer_formats (mixer : sun8i_mixer) (layer : Nat)
    (_plane : drm_plane) : sun8i_mixer :=
  { mixer with calls := mixer.calls ++ [mixer_call.update_vi_layer_formats layer] }

/-- Modelled from the spec: `sun8i_mixer_update_vi_layer_buffer` (mixer code) programs
the buffer/address registers in the Video layout; enable bits are left alone. -/
def sun8i_mixer_update_vi_layer_buffer (mixer : sun8i_mixer) (layer : Nat)
    (_plane : drm_plane) : sun8i_mixer :=
  { mixer with calls := mixer.calls ++ [mixer_call.update_vi_layer_buffer layer] }

/-- Modelled from the spec: `sun8i_mixer_update_ui_layer_coord` (mixer code) programs
the coordinate registers in the UI layout; enable bits are left alone. -/
def sun8i_mixer_update_ui_layer_coord (mixer : sun8i_mixer) (layer : Nat)
    (_plane : drm_plane) : sun8i_mixer :=
  { mixer with calls := mixer.calls ++ [mixer_call.update_ui_layer_coord layer] }

/-- Modelled from the spec: `sun8i_mixer_update_ui_layer_formats` (mixer code) programs
the pixel-format registers in the UI layout; enable bits are left alone. -/
def sun8i_mixer_update_ui_layer_formats (mixer : sun8i_mixer) (layer : Nat)
    (_plane : drm_plane) : sun8i_mixer :=
  { mixer with calls := mixer.calls ++ [mixer_call.update_ui_layer_formats layer] }

/-- Modelled from the spec: `sun8i_mixer_update_ui_layer_buffer` (mixer code) programs
the buffer/address registers in the UI layout; enable bits are left alone. -/
def sun8i_mixer_update_ui_layer_buffer (mixer : sun8i_mixer) (layer : Nat)
    (_plane : drm_plane) : sun8i_mixer :=
  { mixer with calls := mixer.calls ++ [mixer_call.update_ui_layer_buffer layer] }

/-! ## Admission check -/

/-- What the host's plane-helper header supplies to the check: the constant
`DRM_PLANE_HELPER_NO_SCALING` (the identity scale) and the clipping helper
`drm_plane_helper_check_state (state, clip, min_scale, max_scale, can_position,
can_update_disabled)`. Neither is defined in this file, so both are parameters. -/
structure drm_plane_helper where
  DRM_PLANE_HELPER_NO_SCALING : Int
  drm_plane_helper_check_state :
    drm_plane_state → drm_rect → Int → Int → Bool → Bool → Except Errno Unit

/-- The bit macro: `BIT(nr)` is `1UL << nr`. -/
def BIT (nr : Nat) : Nat := 1 <<< nr

/-- The test `!!(layer->mixer->cfg->scaler_mask & BIT(layer->id))` of the check. -/
def scaler_supported (layer : sun8i_layer) : Bool :=
  decide (layer.mixer.cfg.scaler_mask &&& BIT layer.id ≠ 0)

/-- The callback `sun8i_mixer_layer_atomic_check (plane, state)`; `layer` is the layer
the plane is embedded in. `return 0` is `.ok ()`. -/
def sun8i_mixer_layer_atomic_check (host : drm_plane_helper) (layer : sun8i_layer)
    (state : drm_plane_state) : Except Errno Unit :=
  match state.crtc with
  | none => .ok ()
  | some crtc =>
    match drm_atomic_get_existing_crtc_state state.state crtc with
    | none => .error Errno.EINVAL
    | some crtc_state =>
      let clip : drm_rect :=
        { x1 := 0
          y1 := 0
          x2 := crtc_state.adjusted_mode.hdisplay
          y2 := crtc_state.adjusted_mode.vdisplay }
      let min_scale : Int :=
        if scaler_supported layer then 1 else host.DRM_PLANE_HELPER_NO_SCALING
      let max_scale : Int :=
        if scaler_supported layer then (((1 <<< 20) - 1 : Nat) : Int)
        else host.DRM_PLANE_HELPER_NO_SCALING
      host.drm_plane_helper_check_state state clip min_scale max_scale true true

/-- The scale of one axis as a fixed-point number whose unit is `1 / no_scaling`: the
ratio of the destination extent to the source extent, times the identity value. -/
def fixed_point_scale (no_scaling : Int) (src dst : Nat) : ℚ :=
  ((dst : ℚ) * (no_scaling : ℚ)) / (src : ℚ)

/-- Modelled from the spec: "the ratio of destination to source extents (per axis)
falls within the scale bounds", compared by integer cross-multiplication as the design
notes ask, for one axis. -/
def scale_within_bounds (no_scaling : Int) (src dst : Nat) (min_scale max_scale : Int) :
    Bool :=
  decide (min_scale * (src : Int) ≤ (dst : Int) * no_scaling ∧
          (dst : Int) * no_scaling ≤ max_scale * (src : Int))

/-- Modelled from the spec: the host's clipping helper `drm_plane_helper_check_state`,
which is part of the host's plane-helper library. A state is rejected with
`ScaleOutOfRange` (the error number `ERANGE`) when the scale of an axis leaves
[`min_scale`, `max_scale`]; otherwise it is accepted, because "clipping is permitted /
does not itself cause rejection": a destination that is clipped away leaves an
invisible plane, not an error. Extents are non-negative by type, so no degenerate
rectangle reaches the helper. -/
def drm_plane_helper_check_state (no_scaling : Int) (state : drm_plane_state)
    (_clip : drm_rect) (min_scale max_scale : Int)
    (_can_position _can_update_disabled : Bool) : Except Errno Unit :=
  if scale_within_bounds no_scaling state.src.w state.dst.w min_scale max_scale &&
     scale_within_bounds no_scaling state.src.h state.dst.h min_scale max_scale
  then .ok ()
  else .error Errno.ERANGE

/-- The plane-helper header with the clipping helper modelled as above; the identity
scale stays a parameter. -/
def spec_plane_helper (no_scaling : Int) : drm_plane_helper :=
  { DRM_PLANE_HELPER_NO_SCALING := no_scaling
    drm_plane_helper_check_state := drm_plane_helper_check_state no_scaling }

/-- The destination rectangle of a proposed state lies inside the target surface
[0,0]-[`hdisplay`,`vdisplay`] of the given output state. -/
def dst_inside_surface (state : drm_plane_state) (crtc_state : drm_crtc_state) : Bool :=
  decide (0 ≤ state.dst.x ∧ 0 ≤ state.dst.y ∧
          state.dst.x + (state.dst.w : Int) ≤ crtc_state.adjusted_mode.hdisplay ∧
          state.dst.y + (state.dst.h : Int) ≤ crtc_state.adjusted_mode.vdisplay)

/-! ## Disable and update -/

/-- The callback `sun8i_mixer_layer_atomic_disable (plane, old_state)`. -/
def sun8i_mixer_layer_atomic_disable (layer : sun8i_layer)
    (_old_state : Option drm_plane_state) : sun8i_layer :=
  let mixer := layer.mixer
  { layer with mixer := sun8i_mixer_layer_enable mixer layer.id false }

/-- The callback `sun8i_mixer_layer_atomic_update (plane, old_state)`. It reads the
new state through `plane->state`; `none` stands for the NULL dereference when the
plane has no state. -/
def sun8i_mixer_layer_atomic_update (layer : sun8i_layer)
    (_old_state : Option drm_plane_state) : Option sun8i_layer :=
  let mixer := layer.mixer
  match layer.plane.state with
  | none => none
  | some state =>
    if !state.visible then
      some { layer with mixer := sun8i_mixer_layer_enable mixer layer.id false }
    else
      let mixer :=
        if layer.id < mixer.cfg.vi_num then
          let mixer := sun8i_mixer_update_vi_layer_coord mixer layer.id layer.plane
          let mixer := sun8i_mixer_update_vi_layer_formats mixer layer.id layer.plane
          sun8i_mixer_update_vi_layer_buffer mixer layer.id layer.plane
        else
          let mixer := sun8i_mixer_update_ui_layer_coord mixer layer.id layer.plane
          let mixer := sun8i_mixer_update_ui_layer_formats mixer layer.id layer.plane
          sun8i_mixer_update_ui_layer_buffer mixer layer.id layer.plane
      some { layer with mixer := sun8i_mixer_layer_enable mixer layer.id true }

/-! ## Layer registry -/

/-- A call into the host made while layers are built, tagged with the index of the
layer under construction. -/
inductive host_call
  | devm_kcalloc (n : Nat)
  | devm_kzalloc (index : Nat)
  | drm_universal_plane_init (index : Nat) (possible_crtcs : Nat)
      (formats : List drm_format) (format_count : Nat) (type : drm_plane_type)
  | drm_plane_create_zpos_immutable_property (index : Nat) (zpos : Nat)
deriving DecidableEq, Repr

/-- The outcomes of the host calls, which this file does not decide: whether the plane
array and the layer of each index can be allocated, and what the host's plane
registration and zpos-property creation return for each index (`.ok ()` for 0, an error
number otherwise). -/
structure host_outcomes where
  devm_kcalloc : Bool
  devm_kzalloc : Nat → Bool
  drm_universal_plane_init : Nat → Except Errno Unit
  drm_plane_create_zpos_immutable_property : Nat → Except Errno Unit

/-- The host device (`struct drm_device`): the outcomes it will give and the calls made
on it so far (oldest first). -/
structure drm_device where
  host : host_outcomes
  calls : List host_call

/-- Record one more host call on the device. -/
def drm_device.record (drm : drm_device) (c : host_call) : drm_device :=
  { drm with calls := drm.calls ++ [c] }

/-- The function `sun8i_layer_init_one (drm, mixer, index)`: the new layer or an
`ERR_PTR`, and the device after the calls. A `devm_kzalloc`ed layer is all zero; the
host's `drm_universal_plane_init` fills in the plane. -/
def sun8i_layer_init_one (drm : drm_device) (mixer : sun8i_mixer) (index : Nat) :
    Except Errno sun8i_layer × drm_device :=
  let drm := drm.record (host_call.devm_kzalloc index)
  if !drm.host.devm_kzalloc index then
    (.error Errno.ENOMEM, drm)
  else
    let formats : List drm_format :=
      if index < mixer.cfg.vi_num then sun8i_mixer_vi_layer_formats
      else sun8i_mixer_ui_layer_formats
    let format_count : Nat :=
      if index < mixer.cfg.vi_num then sun8i_mixer_vi_layer_formats.length
      else sun8i_mixer_ui_layer_formats.length
    let type : drm_plane_type :=
      if index = mixer.cfg.vi_num then DRM_PLANE_TYPE_PRIMARY else DRM_PLANE_TYPE_OVERLAY
    let drm := drm.record (host_call.drm_universal_plane_init index 0 formats format_count type)
    match drm.host.drm_universal_plane_init index with
    | .error ret => (.error ret, drm)
    | .ok () =>
      let plane : drm_plane :=
        { possible_crtcs := 0
          format_types := formats.take format_count
          type := type
          zpos := none
          helper_private := none
          state := none }
      let drm := drm.record (host_call.drm_plane_create_zpos_immutable_property index index)
      match drm.host.drm_plane_create_zpos_immutable_property index with
      | .error ret => (.error ret, drm)
      | .ok () =>
        let plane := { plane with zpos := some index }
        let plane :=
          { plane with helper_private := some plane_helper_funcs.sun8i_mixer_layer_helper_funcs }
        (.ok { plane := plane, mixer := mixer, id := index }, drm)

/-- The loop `for (i = ...; i < plane_cnt; i++)` of `sun8i_layers_init`, with
`remaining = plane_cnt - i` iterations to go. -/
def sun8i_layers_init_loop (mixer : sun8i_mixer) :
    Nat → Nat → List (Option sun8i_layer) → drm_device →
      Except Errno (List (Option sun8i_layer)) × drm_device
  | 0, _, planes, drm => (.ok planes, drm)
  | remaining + 1, i, planes, drm =>
    match sun8i_layer_init_one drm mixer i with
    | (.error e, drm) => (.error e, drm)
    | (.ok layer, drm) =>
      sun8i_layers_init_loop mixer remaining (i + 1) (planes.set i (some layer)) drm

/-- The function `sun8i_layers_init (drm, engine)`; `mixer` is the mixer of the engine.
The result is the zero-filled array of `plane_cnt + 1` plane pointers with the first
`plane_cnt` entries set (each plane is given by the layer that embeds it), or an
`ERR_PTR`. -/
def sun8i_layers_init (drm : drm_device) (mixer : sun8i_mixer) :
    Except Errno (List (Option sun8i_layer)) × drm_device :=
  let plane_cnt := mixer.cfg.vi_num + mixer.cfg.ui_num
  let drm := drm.record (host_call.devm_kcalloc (plane_cnt + 1))
  if !drm.host.devm_kcalloc then
    (.error Errno.ENOMEM, drm)
  else
    let planes : List (Option sun8i_layer) := List.replicate (plane_cnt + 1) none
    sun8i_layers_init_loop mixer plane_cnt 0 planes drm

/-! ## Concrete inputs used by the scenarios below -/

/-- A mixer with two video channels and one UI channel, none of them with a scaler. -/
def demo_mixer : sun8i_mixer :=
  { cfg := { vi_num := 2, ui_num := 1, scaler_mask := 0 }, enabled := [], calls := [] }

/-- The same mixer with a scaler on each of its three layers. -/
def demo_mixer_scaler : sun8i_mixer :=
  { cfg := { vi_num := 2, ui_num := 1, scaler_mask := 7 }, enabled := [], calls := [] }

/-- Output 0. -/
def demo_crtc : drm_crtc := { index := 0 }

/-- A transaction that holds the state of output 0, a 1920x1080 surface. -/
def demo_transaction : drm_atomic_state :=
  { crtc_states :=
      [(demo_crtc, { adjusted_mode := { hdisplay := 1920, vdisplay := 1080 } })] }

/-- A transaction that holds no output state. -/
def demo_empty_transaction : drm_atomic_state := { crtc_states := [] }

/-- A proposed state at position (0,0) with the given source and destination extents,
target and transaction. -/
def demo_state (crtc : Option drm_crtc) (txn : drm_atomic_state)
    (src_w src_h dst_w dst_h : Nat) (visible : Bool) : drm_plane_state :=
  { crtc := crtc
    state := txn
    src := { x := 0, y := 0, w := src_w, h := src_h }
    dst := { x := 0, y := 0, w := dst_w, h := dst_h }
    format := DRM_FORMAT_XRGB8888
    fb := some 1
    visible := visible }

/-- The layer that a successful `sun8i_layer_init_one (drm, mixer, index)` hands back,
field by field, except that the plane's current state is the given one (the registry
leaves it NULL, the host sets it later). -/
def built_layer (mixer : sun8i_mixer) (index : Nat) (state : Option drm_plane_state) :
    sun8i_layer :=
  { plane :=
      { possible_crtcs := 0
        format_types :=
          if index < mixer.cfg.vi_num then sun8i_mixer_vi_layer_formats
          else sun8i_mixer_ui_layer_formats
        type :=
          if index = mixer.cfg.vi_num then DRM_PLANE_TYPE_PRIMARY
          else DRM_PLANE_TYPE_OVERLAY
        zpos := some index
        helper_private := some plane_helper_funcs.sun8i_mixer_layer_helper_funcs
        state := state }
    mixer := mixer
    id := index }

/-- A host on which every allocation and registration succeeds. -/
def demo_host_ok : host_outcomes :=
  { devm_kcalloc := true
    devm_kzalloc := fun _ => true
    drm_universal_plane_init := fun _ => .ok ()
    drm_plane_create_zpos_immutable_property := fun _ => .ok () }

/-- A clipping helper that rejects everything, to show when the check does not call it. -/
def demo_rejecting_helper : drm_plane_helper :=
  { DRM_PLANE_HELPER_NO_SCALING := 65536
    drm_plane_helper_check_state := fun _ _ _ _ _ _ => .error (Errno.other 0) }

/-- The outcome of building the layer of one index on a host that has seen no call
yet: the value `sun8i_layer_init_one` returns. -/
def construction (host : host_outcomes) (mixer : sun8i_mixer) (index : Nat) :
    Except Errno sun8i_layer :=
  (sun8i_layer_init_one { host := host, calls := [] } mixer index).1

/-- The index of the layer a host call was made for; the allocation of the plane array
is made for no layer in particular. -/
def host_call.layer_index : host_call → Option Nat
  | host_call.devm_kcalloc _ => none
  | host_call.devm_kzalloc index => some index
  | host_call.drm_universal_plane_init index _ _ _ _ => some index
  | host_call.drm_plane_create_zpos_immutable_property index _ => some index

/-- The plane array of a complete registry: the layers of the indices
`0 .. plane_cnt - 1` in order, then the NULL entry that ends the array. -/
def full_planes (mixer : sun8i_mixer) (plane_cnt : Nat) : List (Option sun8i_layer) :=
  (List.range plane_cnt).map (fun i => some (built_layer mixer i none)) ++ [none]

/-- A host on which the registration of the plane of index 1 fails with error 5 and
everything else succeeds. -/
def demo_host_fail : host_outcomes :=
  { demo_host_ok with
    drm_universal_plane_init := fun i => if i = 1 then .error (Errno.other 5) else .ok () }

/-! ## Shared lemmas -/

theorem scaler_supported_iff_testBit (layer : sun8i_layer) :
    scaler_supported layer = true ↔
      layer.mixer.cfg.scaler_mask.testBit layer.id = true := by
  unfold scaler_supported BIT
  rw [Nat.one_shiftLeft, decide_eq_true_iff]
  constructor
  · intro h
    obtain ⟨i, hi⟩ := Nat.ne_zero_implies_bit_true h
    rw [Nat.testBit_and, Nat.testBit_two_pow, Bool.and_eq_true, decide_eq_true_iff] at hi
    obtain ⟨h1, h2⟩ := hi
    rw [h2]; exact h1
  · intro h hz
    have h2 : (layer.mixer.cfg.scaler_mask &&& 2 ^ layer.id).testBit layer.id = true := by
      rw [Nat.testBit_and, h, Nat.testBit_two_pow_self]; rfl
    rw [hz, Nat.zero_testBit] at h2
    exact Bool.false_ne_true h2

theorem atomic_check_with_surface (host : drm_plane_helper) (layer : sun8i_layer)
    (state : drm_plane_state) (crtc : drm_crtc) (crtc_state : drm_crtc_state)
    (hcrtc : state.crtc = some crtc)
    (hstate : drm_atomic_get_existing_crtc_state state.state crtc = some crtc_state) :
    sun8i_mixer_layer_atomic_check host layer state =
      host.drm_plane_helper_check_state state
        { x1 := 0, y1 := 0, x2 := crtc_state.adjusted_mode.hdisplay,
          y2 := crtc_state.adjusted_mode.vdisplay }
        (if scaler_supported layer then 1 else host.DRM_PLANE_HELPER_NO_SCALING)
        (if scaler_supported layer then (((1 <<< 20) - 1 : Nat) : Int)
         else host.DRM_PLANE_HELPER_NO_SCALING)
        true true := by
  simp only [sun8i_mixer_layer_atomic_check, hcrtc, hstate]

/-! ## Admission check: the bounds handed to the clipping helper (C2) -/

/-- C2: when the proposed state targets an output whose state is in the transaction,
the check hands the clipping helper the clip rectangle [0,0]-[hdisplay,vdisplay] and
the scale bounds 1 and 2^20 - 1 when bit `layer.id` of the scaler mask is set, and the
identity scale for both bounds when it is clear; in both cases min <= max and both
bounds are values of a signed 32-bit int. -/
theorem atomic_check_passes_scale_bounds (host : drm_plane_helper) (layer : sun8i_layer)
    (state : drm_plane_state) (crtc : drm_crtc) (crtc_state : drm_crtc_state)
    (hcrtc : state.crtc = some crtc)
    (hstate : drm_atomic_get_existing_crtc_state state.state crtc = some crtc_state)
    (hint : -2 ^ 31 ≤ host.DRM_PLANE_HELPER_NO_SCALING ∧
            host.DRM_PLANE_HELPER_NO_SCALING < 2 ^ 31) :
    (scaler_supported layer = true ↔
      layer.mixer.cfg.scaler_mask.testBit layer.id = true) ∧
    ∃ min_scale max_scale : Int,
      sun8i_mixer_layer_atomic_check host layer state =
        host.drm_plane_helper_check_state state
          { x1 := 0, y1 := 0, x2 := crtc_state.adjusted_mode.hdisplay,
            y2 := crtc_state.adjusted_mode.vdisplay }
          min_scale max_scale true true ∧
      (scaler_supported layer = true → min_scale = 1 ∧ max_scale = 2 ^ 20 - 1) ∧
      (scaler_supported layer = false →
        min_scale = host.DRM_PLANE_HELPER_NO_SCALING ∧
        max_scale = host.DRM_PLANE_HELPER_NO_SCALING) ∧
      min_scale ≤ max_scale ∧
      (-2 ^ 31 ≤ min_scale ∧ min_scale < 2 ^ 31) ∧
      (-2 ^ 31 ≤ max_scale ∧ max_scale < 2 ^ 31) := by
  refine ⟨scaler_supported_iff_testBit layer, _, _,
    atomic_check_with_surface host layer state crtc crtc_state hcrtc hstate, ?_⟩
  cases hs : scaler_supported layer
  · simp
    omega
  · simp

/-- C2 at a concrete input: layer 0 of a mixer with scaler mask 7 and of one with
mask 0, a state on the 1920x1080 output, identity scale 65536. -/
theorem atomic_check_passes_scale_bounds_witness :
    (∃ min_scale max_scale : Int,
      sun8i_mixer_layer_atomic_check (spec_plane_helper 65536)
          (built_layer demo_mixer_scaler 0 none)
          (demo_state (some demo_crtc) demo_transaction 100 100 100 100 true) =
        (spec_plane_helper 65536).drm_plane_helper_check_state
          (demo_state (some demo_crtc) demo_transaction 100 100 100 100 true)
          { x1 := 0, y1 := 0, x2 := 1920, y2 := 1080 } min_scale max_scale true true ∧
      min_scale = 1 ∧ max_scale = 1048575) ∧
    (∃ min_scale max_scale : Int,
      sun8i_mixer_layer_atomic_check (spec_plane_helper 65536)
          (built_layer demo_mixer 0 none)
          (demo_state (some demo_crtc) demo_transaction 100 100 100 100 true) =
        (spec_plane_helper 65536).drm_plane_helper_check_state
          (demo_state (some demo_crtc) demo_transaction 100 100 100 100 true)
          { x1 := 0, y1 := 0, x2 := 1920, y2 := 1080 } min_scale max_scale true true ∧
      min_scale = 65536 ∧ max_scale = 65536) := by
  constructor
  · obtain ⟨-, a, b, h1, h2, -, -⟩ :=
      atomic_check_passes_scale_bounds (spec_plane_helper 65536)
        (built_layer demo_mixer_scaler 0 none)
        (demo_state (some demo_crtc) demo_transaction 100 100 100 100 true)
        demo_crtc { adjusted_mode := { hdisplay := 1920, vdisplay := 1080 } }
        rfl rfl ⟨by decide, by decide⟩
    exact ⟨a, b, h1, (h2 rfl).1, (h2 rfl).2⟩
  · obtain ⟨-, a, b, h1, -, h3, -⟩ :=
      atomic_check_passes_scale_bounds (spec_plane_helper 65536)
        (built_layer demo_mixer 0 none)
        (demo_state (some demo_crtc) demo_transaction 100 100 100 100 true)
        demo_crtc { adjusted_mode := { hdisplay := 1920, vdisplay := 1080 } }
        rfl rfl ⟨by decide, by decide⟩
    exact ⟨a, b, h1, (h3 rfl).1, (h3 rfl).2⟩

theorem scale_within_bounds_identity (no_scaling : Int) (hpos : 0 < no_scaling)
    (src dst : Nat) :
    scale_within_bounds no_scaling src dst no_scaling no_scaling = decide (dst = src) := by
  unfold scale_within_bounds
  rw [decide_eq_decide, mul_comm (dst : Int) no_scaling, mul_le_mul_left hpos,
    mul_le_mul_left hpos]
  constructor
  · rintro ⟨h1, h2⟩; omega
  · intro h; subst h; exact ⟨le_refl _, le_refl _⟩

theorem fixed_point_scale_src_pos (no_scaling : Int) (src dst : Nat) (r : ℚ)
    (hr : 0 < r) (h : r ≤ fixed_point_scale no_scaling src dst) : 0 < src := by
  rcases Nat.eq_zero_or_pos src with h0 | h0
  · subst h0
    simp [fixed_point_scale] at h
    linarith
  · exact h0

theorem scale_within_bounds_accept (no_scaling : Int) (src dst : Nat)
    (hlo : 1 ≤ fixed_point_scale no_scaling src dst)
    (hhi : fixed_point_scale no_scaling src dst < 2 ^ 20 - 1) :
    scale_within_bounds no_scaling src dst 1 (((1 <<< 20) - 1 : Nat) : Int) = true := by
  have hsrc : (0 : ℚ) < (src : ℚ) := by
    exact_mod_cast fixed_point_scale_src_pos no_scaling src dst 1 one_pos hlo
  unfold fixed_point_scale at hlo hhi
  rw [le_div_iff₀ hsrc] at hlo
  rw [div_lt_iff₀ hsrc] at hhi
  have h1 : (1 : Int) * (src : Int) ≤ (dst : Int) * no_scaling := by exact_mod_cast hlo
  have h2 : (dst : Int) * no_scaling < (2 ^ 20 - 1) * (src : Int) := by exact_mod_cast hhi
  unfold scale_within_bounds
  rw [decide_eq_true_iff]
  refine ⟨h1, ?_⟩
  have : (((1 <<< 20) - 1 : Nat) : Int) = 2 ^ 20 - 1 := by decide
  rw [this]
  exact le_of_lt h2

theorem scale_within_bounds_reject (no_scaling : Int) (src dst : Nat)
    (h : 2 ^ 20 ≤ fixed_point_scale no_scaling src dst) :
    scale_within_bounds no_scaling src dst 1 (((1 <<< 20) - 1 : Nat) : Int) = false := by
  have hsrcN : 0 < src :=
    fixed_point_scale_src_pos no_scaling src dst (2 ^ 20) (by norm_num) h
  have hsrc : (0 : ℚ) < (src : ℚ) := by exact_mod_cast hsrcN
  unfold fixed_point_scale at h
  rw [le_div_iff₀ hsrc] at h
  have h1 : (2 ^ 20 : Int) * (src : Int) ≤ (dst : Int) * no_scaling := by exact_mod_cast h
  unfold scale_within_bounds
  rw [decide_eq_false_iff_not]
  rintro ⟨-, h2⟩
  have : (((1 <<< 20) - 1 : Nat) : Int) = 2 ^ 20 - 1 := by decide
  rw [this] at h2
  have h3 : (0 : Int) < (src : Int) := by exact_mod_cast hsrcN
  nlinarith

theorem atomic_check_no_scaler (no_scaling : Int) (hpos : 0 < no_scaling)
    (layer : sun8i_layer) (state : drm_plane_state) (crtc : drm_crtc)
    (crtc_state : drm_crtc_state) (hsc : scaler_supported layer = false)
    (hcrtc : state.crtc = some crtc)
    (hstate : drm_atomic_get_existing_crtc_state state.state crtc = some crtc_state) :
    sun8i_mixer_layer_atomic_check (spec_plane_helper no_scaling) layer state =
      if state.dst.w = state.src.w ∧ state.dst.h = state.src.h then .ok ()
      else .error Errno.ERANGE := by
  rw [atomic_check_with_surface _ layer state crtc crtc_state hcrtc hstate]
  simp only [spec_plane_helper, drm_plane_helper_check_state, hsc, Bool.false_eq_true,
    if_false, scale_within_bounds_identity no_scaling hpos]
  by_cases hw : state.dst.w = state.src.w <;> by_cases hh : state.dst.h = state.src.h <;>
    simp [hw, hh]

theorem atomic_check_scaler (no_scaling : Int)
    (layer : sun8i_layer) (state : drm_plane_state) (crtc : drm_crtc)
    (crtc_state : drm_crtc_state) (hsc : scaler_supported layer = true)
    (hcrtc : state.crtc = some crtc)
    (hstate : drm_atomic_get_existing_crtc_state state.state crtc = some crtc_state) :
    sun8i_mixer_layer_atomic_check (spec_plane_helper no_scaling) layer state =
      if scale_within_bounds no_scaling state.src.w state.dst.w 1
            (((1 <<< 20) - 1 : Nat) : Int) &&
         scale_within_bounds no_scaling state.src.h state.dst.h 1
            (((1 <<< 20) - 1 : Nat) : Int)
      then .ok () else .error Errno.ERANGE := by
  rw [atomic_check_with_surface _ layer state crtc crtc_state hcrtc hstate]
  simp only [spec_plane_helper, drm_plane_helper_check_state, hsc, if_true]

/-! ## Admission check: layers without scaler (C3) -/

/-- C3 as stated fails on a state that targets no output: layer 0 of a mixer without
scalers, source 100x100, destination 200x100, no target output: the destination extent
differs from the source extent, and the check accepts. -/
theorem atomic_check_no_scaler_counterexample :
    scaler_supported (built_layer demo_mixer 0 none) = false ∧
    (demo_state none demo_transaction 100 100 200 100 true).dst.w ≠
      (demo_state none demo_transaction 100 100 200 100 true).src.w ∧
    sun8i_mixer_layer_atomic_check (spec_plane_helper 65536)
      (built_layer demo_mixer 0 none)
      (demo_state none demo_transaction 100 100 200 100 true) = .ok () := by
  refine ⟨rfl, by decide, rfl⟩

/-- C3, amended: for a layer without scaler (bit `layer.id` of the scaler mask clear),
the check rejects any proposed state that targets an output and whose destination
extent differs from its source extent on either axis (with ScaleOutOfRange, `ERANGE`,
when the output's state is in the transaction), and accepts a state whose source and
destination extents are equal and lie inside the target surface. -/
theorem atomic_check_no_scaler_equal_extents (no_scaling : Int) (hpos : 0 < no_scaling)
    (layer : sun8i_layer) (state : drm_plane_state) (crtc : drm_crtc)
    (hsc : scaler_supported layer = false) (hcrtc : state.crtc = some crtc) :
    ((state.dst.w ≠ state.src.w ∨ state.dst.h ≠ state.src.h) →
      ∃ e, sun8i_mixer_layer_atomic_check (spec_plane_helper no_scaling) layer state =
        .error e) ∧
    (∀ crtc_state : drm_crtc_state,
      drm_atomic_get_existing_crtc_state state.state crtc = some crtc_state →
      ((state.dst.w ≠ state.src.w ∨ state.dst.h ≠ state.src.h) →
        sun8i_mixer_layer_atomic_check (spec_plane_helper no_scaling) layer state =
          .error Errno.ERANGE) ∧
      ((state.dst.w = state.src.w ∧ state.dst.h = state.src.h) →
        dst_inside_surface state crtc_state = true →
        sun8i_mixer_layer_atomic_check (spec_plane_helper no_scaling) layer state =
          .ok ())) := by
  have key : ∀ crtc_state : drm_crtc_state,
      drm_atomic_get_existing_crtc_state state.state crtc = some crtc_state →
      ((state.dst.w ≠ state.src.w ∨ state.dst.h ≠ state.src.h) →
        sun8i_mixer_layer_atomic_check (spec_plane_helper no_scaling) layer state =
          .error Errno.ERANGE) ∧
      ((state.dst.w = state.src.w ∧ state.dst.h = state.src.h) →
        dst_inside_surface state crtc_state = true →
        sun8i_mixer_layer_atomic_check (spec_plane_helper no_scaling) layer state =
          .ok ()) := by
    intro crtc_state hstate
    rw [atomic_check_no_scaler no_scaling hpos layer state crtc crtc_state hsc hcrtc hstate]
    constructor
    · intro hne
      rw [if_neg]
      rintro ⟨hw, hh⟩
      rcases hne with h | h
      · exact h hw
      · exact h hh
    · intro heq _
      rw [if_pos heq]
  refine ⟨?_, key⟩
  intro hne
  cases hstate : drm_atomic_get_existing_crtc_state state.state crtc with
  | none =>
    exact ⟨Errno.EINVAL, by simp only [sun8i_mixer_layer_atomic_check, hcrtc, hstate]⟩
  | some crtc_state => exact ⟨Errno.ERANGE, (key crtc_state hstate).1 hne⟩

/-- C3 at the scenario of the specification: surface 1920x1080, layer 0 without scaler,
identity scale 65536; source = destination = 100x100 at (0,0) lies inside the surface
and is accepted, and destination 200x100 is rejected with ScaleOutOfRange. -/
theorem atomic_check_no_scaler_equal_extents_witness :
    dst_inside_surface
      (demo_state (some demo_crtc) demo_transaction 100 100 100 100 true)
      { adjusted_mode := { hdisplay := 1920, vdisplay := 1080 } } = true ∧
    sun8i_mixer_layer_atomic_check (spec_plane_helper 65536)
      (built_layer demo_mixer 0 none)
      (demo_state (some demo_crtc) demo_transaction 100 100 100 100 true) = .ok () ∧
    sun8i_mixer_layer_atomic_check (spec_plane_helper 65536)
      (built_layer demo_mixer 0 none)
      (demo_state (some demo_crtc) demo_transaction 100 100 200 100 true) =
        .error Errno.ERANGE :=
  ⟨by decide,
   ((atomic_check_no_scaler_equal_extents 65536 (by decide)
        (built_layer demo_mixer 0 none)
        (demo_state (some demo_crtc) demo_transaction 100 100 100 100 true)
        demo_crtc rfl rfl).2 _ rfl).2 ⟨rfl, rfl⟩ (by decide),
   ((atomic_check_no_scaler_equal_extents 65536 (by decide)
        (built_layer demo_mixer 0 none)
        (demo_state (some demo_crtc) demo_transaction 100 100 200 100 true)
        demo_crtc rfl rfl).2 _ rfl).1 (Or.inl (by decide))⟩

/-! ## Admission check: layers with scaler (C4) -/

/-- C4 as stated fails on a state that targets no output: layer 0 of a mixer with a
scaler on every layer, source 1x1, destination 16x16, so that the scale is 16 * 65536 =
2^20 on both axes, no target output: the check accepts. -/
theorem atomic_check_scaler_counterexample :
    scaler_supported (built_layer demo_mixer_scaler 0 none) = true ∧
    (2 : ℚ) ^ 20 ≤ fixed_point_scale 65536
      (demo_state none demo_transaction 1 1 16 16 true).src.w
      (demo_state none demo_transaction 1 1 16 16 true).dst.w ∧
    sun8i_mixer_layer_atomic_check (spec_plane_helper 65536)
      (built_layer demo_mixer_scaler 0 none)
      (demo_state none demo_transaction 1 1 16 16 true) = .ok () := by
  refine ⟨rfl, ?_, rfl⟩
  simp only [demo_state, fixed_point_scale]
  norm_num

/-- C4, amended: for a layer with a scaler (bit `layer.id` of the scaler mask set) and a
proposed state that targets an output whose state is in the transaction, the check
accepts the state when the scale of each axis lies in [1, 2^20 - 1), the lower bound 1
included, and rejects it with ScaleOutOfRange when the scale of some axis is at least
2^20. -/
theorem atomic_check_scaler_range (no_scaling : Int)
    (layer : sun8i_layer) (state : drm_plane_state) (crtc : drm_crtc)
    (crtc_state : drm_crtc_state) (hsc : scaler_supported layer = true)
    (hcrtc : state.crtc = some crtc)
    (hstate : drm_atomic_get_existing_crtc_state state.state crtc = some crtc_state) :
    ((1 ≤ fixed_point_scale no_scaling state.src.w state.dst.w ∧
      fixed_point_scale no_scaling state.src.w state.dst.w < 2 ^ 20 - 1 ∧
      1 ≤ fixed_point_scale no_scaling state.src.h state.dst.h ∧
      fixed_point_scale no_scaling state.src.h state.dst.h < 2 ^ 20 - 1) →
      sun8i_mixer_layer_atomic_check (spec_plane_helper no_scaling) layer state =
        .ok ()) ∧
    ((2 ^ 20 ≤ fixed_point_scale no_scaling state.src.w state.dst.w ∨
      2 ^ 20 ≤ fixed_point_scale no_scaling state.src.h state.dst.h) →
      sun8i_mixer_layer_atomic_check (spec_plane_helper no_scaling) layer state =
        .error Errno.ERANGE) := by
  rw [atomic_check_scaler no_scaling layer state crtc crtc_state hsc hcrtc hstate]
  constructor
  · rintro ⟨h1, h2, h3, h4⟩
    rw [scale_within_bounds_accept no_scaling _ _ h1 h2,
      scale_within_bounds_accept no_scaling _ _ h3 h4]
    rfl
  · rintro (h | h)
    · rw [scale_within_bounds_reject no_scaling _ _ h]
      rfl
    · rw [scale_within_bounds_reject no_scaling _ _ h, Bool.and_false]
      rfl

/-- C4 at concrete inputs on the 1920x1080 output with identity scale 65536: source
65536x65536 to destination 1x1 has scale exactly 1 and is accepted; source 1x1 to
destination 16x16 has scale 2^20 and is rejected with ScaleOutOfRange. -/
theorem atomic_check_scaler_range_witness :
    fixed_point_scale 65536 65536 1 = 1 ∧
    sun8i_mixer_layer_atomic_check (spec_plane_helper 65536)
      (built_layer demo_mixer_scaler 0 none)
      (demo_state (some demo_crtc) demo_transaction 65536 65536 1 1 true) = .ok () ∧
    fixed_point_scale 65536 1 16 = 2 ^ 20 ∧
    sun8i_mixer_layer_atomic_check (spec_plane_helper 65536)
      (built_layer demo_mixer_scaler 0 none)
      (demo_state (some demo_crtc) demo_transaction 1 1 16 16 true) =
        .error Errno.ERANGE := by
  have e1 : fixed_point_scale 65536 65536 1 = 1 := by
    simp only [fixed_point_scale]; norm_num
  have e2 : fixed_point_scale 65536 1 16 = 2 ^ 20 := by
    simp only [fixed_point_scale]; norm_num
  refine ⟨e1, ?_, e2, ?_⟩
  · refine (atomic_check_scaler_range 65536 (built_layer demo_mixer_scaler 0 none)
      (demo_state (some demo_crtc) demo_transaction 65536 65536 1 1 true)
      demo_crtc _ rfl rfl rfl).1 ?_
    simp only [demo_state, e1]
    norm_num
  · refine (atomic_check_scaler_range 65536 (built_layer demo_mixer_scaler 0 none)
      (demo_state (some demo_crtc) demo_transaction 1 1 16 16 true)
      demo_crtc _ rfl rfl rfl).2 (Or.inl ?_)
    simp only [demo_state, e2]
    norm_num

/-! ## Admission check: states without target (C5) -/

/-- C5: a proposed state that targets no output is accepted (the check returns 0)
whatever the clipping helper, the identity scale, the layer and its mixer's scaler
mask, the transaction and the other fields of the state are; a state that targets an
output whose state is missing from the transaction is rejected with `-EINVAL`. -/
theorem atomic_check_without_target (host : drm_plane_helper) (layer : sun8i_layer)
    (state : drm_plane_state) :
    (state.crtc = none → sun8i_mixer_layer_atomic_check host layer state = .ok ()) ∧
    (∀ crtc : drm_crtc, state.crtc = some crtc →
      drm_atomic_get_existing_crtc_state state.state crtc = none →
      sun8i_mixer_layer_atomic_check host layer state = .error Errno.EINVAL) := by
  constructor
  · intro h
    simp only [sun8i_mixer_layer_atomic_check, h]
  · intro crtc h1 h2
    simp only [sun8i_mixer_layer_atomic_check, h1, h2]

/-- C5 at the scenario of the specification: a state with no target and
`visible = false` is accepted even by a check whose clipping helper rejects
everything; a state that targets output 0 in a transaction without output states is
rejected with `-EINVAL`. -/
theorem atomic_check_without_target_witness :
    sun8i_mixer_layer_atomic_check demo_rejecting_helper
      (built_layer demo_mixer_scaler 2 none)
      (demo_state none demo_empty_transaction 100 100 300 7 false) = .ok () ∧
    sun8i_mixer_layer_atomic_check demo_rejecting_helper
      (built_layer demo_mixer_scaler 2 none)
      (demo_state (some demo_crtc) demo_empty_transaction 100 100 100 100 true) =
        .error Errno.EINVAL :=
  ⟨(atomic_check_without_target demo_rejecting_helper
      (built_layer demo_mixer_scaler 2 none)
      (demo_state none demo_empty_transaction 100 100 300 7 false)).1 rfl,
   (atomic_check_without_target demo_rejecting_helper
      (built_layer demo_mixer_scaler 2 none)
      (demo_state (some demo_crtc) demo_empty_transaction 100 100 100 100 true)).2
      demo_crtc rfl rfl⟩

/-! ## Update of an invisible plane (C6) -/

/-- C6: when the plane's new state has `visible = false`, update does exactly what
disable does: one mixer call, `layer_enable (layer.id, false)`, is added and no
coordinate, format or buffer programming; afterwards the layer's enable bit is clear,
and the plane (with its current state), the layer's index and the mixer configuration
are as before. -/
theorem atomic_update_invisible_eq_disable (layer : sun8i_layer)
    (new_state : drm_plane_state) (old_state old_state' : Option drm_plane_state)
    (hstate : layer.plane.state = some new_state) (hvis : new_state.visible = false) :
    sun8i_mixer_layer_atomic_update layer old_state =
      some (sun8i_mixer_layer_atomic_disable layer old_state') ∧
    (sun8i_mixer_layer_atomic_disable layer old_state').mixer.calls =
      layer.mixer.calls ++ [mixer_call.layer_enable layer.id false] ∧
    (sun8i_mixer_layer_atomic_disable layer old_state').is_enabled = false ∧
    (sun8i_mixer_layer_atomic_disable layer old_state').plane = layer.plane ∧
    (sun8i_mixer_layer_atomic_disable layer old_state').plane.state = some new_state ∧
    (sun8i_mixer_layer_atomic_disable layer old_state').id = layer.id ∧
    (sun8i_mixer_layer_atomic_disable layer old_state').mixer.cfg = layer.mixer.cfg := by
  refine ⟨?_, rfl, ?_, rfl, hstate, rfl, rfl⟩
  · simp only [sun8i_mixer_layer_atomic_update, hstate, hvis,
      sun8i_mixer_layer_atomic_disable]
    rfl
  · simp [sun8i_layer.is_enabled, sun8i_mixer_layer_atomic_disable,
      sun8i_mixer_layer_enable]

/-- C6 at a concrete input: layer 2 (the UI layer) of the demo mixer, currently enabled,
with an invisible new state. -/
theorem atomic_update_invisible_eq_disable_witness :
    sun8i_mixer_layer_atomic_update
      (built_layer { demo_mixer with enabled := [2] } 2
        (some (demo_state none demo_empty_transaction 100 100 100 100 false))) none =
      some (sun8i_mixer_layer_atomic_disable
        (built_layer { demo_mixer with enabled := [2] } 2
          (some (demo_state none demo_empty_transaction 100 100 100 100 false))) none) ∧
    (sun8i_mixer_layer_atomic_disable
        (built_layer { demo_mixer with enabled := [2] } 2
          (some (demo_state none demo_empty_transaction 100 100 100 100 false)))
        none).mixer.calls = [mixer_call.layer_enable 2 false] ∧
    (sun8i_mixer_layer_atomic_disable
        (built_layer { demo_mixer with enabled := [2] } 2
          (some (demo_state none demo_empty_transaction 100 100 100 100 false)))
        none).is_enabled = false := by
  obtain ⟨h1, h2, h3, -⟩ := atomic_update_invisible_eq_disable
    (built_layer { demo_mixer with enabled := [2] } 2
      (some (demo_state none demo_empty_transaction 100 100 100 100 false)))
    (demo_state none demo_empty_transaction 100 100 100 100 false) none none rfl rfl
  exact ⟨h1, h2, h3⟩

/-! ## Update of a visible plane (C9) -/

/-- C9: when the plane's new state has `visible = true`, update adds exactly four mixer
calls for `layer.id`, in this order: coordinates, format, buffer, `layer_enable (true)`;
the three programming calls are all of the Video layout when `layer.id < vi_num` and all
of the UI layout otherwise; no call switches a layer off, so every layer that was
enabled stays enabled, and the updated layer is enabled afterwards whether it was
enabled or not. The plane and its current state are as before. -/
theorem atomic_update_visible (layer : sun8i_layer)
    (new_state : drm_plane_state) (old_state : Option drm_plane_state)
    (hstate : layer.plane.state = some new_state) (hvis : new_state.visible = true) :
    ∃ layer' : sun8i_layer,
      sun8i_mixer_layer_atomic_update layer old_state = some layer' ∧
      (layer.id < layer.mixer.cfg.vi_num →
        layer'.mixer.calls = layer.mixer.calls ++
          [mixer_call.update_vi_layer_coord layer.id,
           mixer_call.update_vi_layer_formats layer.id,
           mixer_call.update_vi_layer_buffer layer.id,
           mixer_call.layer_enable layer.id true]) ∧
      (¬ layer.id < layer.mixer.cfg.vi_num →
        layer'.mixer.calls = layer.mixer.calls ++
          [mixer_call.update_ui_layer_coord layer.id,
           mixer_call.update_ui_layer_formats layer.id,
           mixer_call.update_ui_layer_buffer layer.id,
           mixer_call.layer_enable layer.id true]) ∧
      (∀ l en, mixer_call.layer_enable l en ∈ layer'.mixer.calls →
        mixer_call.layer_enable l en ∈ layer.mixer.calls ∨ (l = layer.id ∧ en = true)) ∧
      (∀ l, l ∈ layer.mixer.enabled → l ∈ layer'.mixer.enabled) ∧
      layer'.is_enabled = true ∧
      layer'.plane = layer.plane ∧ layer'.id = layer.id ∧
      layer'.mixer.cfg = layer.mixer.cfg := by
  by_cases hvi : layer.id < layer.mixer.cfg.vi_num
  · refine ⟨{ layer with
        mixer := (sun8i_mixer_layer_enable
          (sun8i_mixer_update_vi_layer_buffer
            (sun8i_mixer_update_vi_layer_formats
              (sun8i_mixer_update_vi_layer_coord layer.mixer layer.id layer.plane)
              layer.id layer.plane) layer.id layer.plane) layer.id true) },
      by simp [sun8i_mixer_layer_atomic_update, hstate, hvis, hvi],
      ?_, ?_, ?_, ?_, ?_, rfl, rfl, rfl⟩
    · intro _
      simp [sun8i_mixer_layer_enable, sun8i_mixer_update_vi_layer_coord,
        sun8i_mixer_update_vi_layer_formats, sun8i_mixer_update_vi_layer_buffer]
    · intro h; exact absurd hvi h
    · intro l en h
      simp [sun8i_mixer_layer_enable, sun8i_mixer_update_vi_layer_coord,
        sun8i_mixer_update_vi_layer_formats, sun8i_mixer_update_vi_layer_buffer] at h
      tauto
    · intro l hl
      simp [sun8i_mixer_layer_enable, sun8i_mixer_update_vi_layer_coord,
        sun8i_mixer_update_vi_layer_formats, sun8i_mixer_update_vi_layer_buffer]
      by_cases h : l = layer.id
      · exact Or.inl h
      · exact Or.inr ⟨hl, h⟩
    · simp [sun8i_layer.is_enabled, sun8i_mixer_layer_enable]
  · refine ⟨{ layer with
        mixer := (sun8i_mixer_layer_enable
          (sun8i_mixer_update_ui_layer_buffer
            (sun8i_mixer_update_ui_layer_formats
              (sun8i_mixer_update_ui_layer_coord layer.mixer layer.id layer.plane)
              layer.id layer.plane) layer.id layer.plane) layer.id true) },
      by simp [sun8i_mixer_layer_atomic_update, hstate, hvis, hvi],
      ?_, ?_, ?_, ?_, ?_, rfl, rfl, rfl⟩
    · intro h; exact absurd h hvi
    · intro _
      simp [sun8i_mixer_layer_enable, sun8i_mixer_update_ui_layer_coord,
        sun8i_mixer_update_ui_layer_formats, sun8i_mixer_update_ui_layer_buffer]
    · intro l en h
      simp [sun8i_mixer_layer_enable, sun8i_mixer_update_ui_layer_coord,
        sun8i_mixer_update_ui_layer_formats, sun8i_mixer_update_ui_layer_buffer] at h
      tauto
    · intro l hl
      simp [sun8i_mixer_layer_enable, sun8i_mixer_update_ui_layer_coord,
        sun8i_mixer_update_ui_layer_formats, sun8i_mixer_update_ui_layer_buffer]
      by_cases h : l = layer.id
      · exact Or.inl h
      · exact Or.inr ⟨hl, h⟩
    · simp [sun8i_layer.is_enabled, sun8i_mixer_layer_enable]

/-- C9 at concrete inputs: video layer 1 of the demo mixer, currently disabled, and a
visible new state. -/
theorem atomic_update_visible_witness :
    ∃ layer' : sun8i_layer,
      sun8i_mixer_layer_atomic_update
        (built_layer demo_mixer 1
          (some (demo_state (some demo_crtc) demo_transaction 100 100 100 100 true)))
        none = some layer' ∧
      layer'.mixer.calls =
        [mixer_call.update_vi_layer_coord 1, mixer_call.update_vi_layer_formats 1,
         mixer_call.update_vi_layer_buffer 1, mixer_call.layer_enable 1 true] ∧
      layer'.is_enabled = true := by
  obtain ⟨l, h1, h2, -, -, -, h3, -⟩ := atomic_update_visible
    (built_layer demo_mixer 1
      (some (demo_state (some demo_crtc) demo_transaction 100 100 100 100 true)))
    (demo_state (some demo_crtc) demo_transaction 100 100 100 100 true) none rfl rfl
  exact ⟨l, h1, h2 (by decide), h3⟩

/-! ## Lemmas on the registry -/

theorem formats_take_count (c : Prop) [Decidable c] :
    (if c then sun8i_mixer_vi_layer_formats else sun8i_mixer_ui_layer_formats).take
      (if c then sun8i_mixer_vi_layer_formats.length
       else sun8i_mixer_ui_layer_formats.length) =
    if c then sun8i_mixer_vi_layer_formats else sun8i_mixer_ui_layer_formats := by
  split <;> exact List.take_length _

theorem init_one_host (drm : drm_device) (mixer : sun8i_mixer) (index : Nat) :
    (sun8i_layer_init_one drm mixer index).2.host = drm.host := by
  unfold sun8i_layer_init_one
  simp only [drm_device.record]
  split
  · rfl
  · split
    · rfl
    · split <;> rfl

theorem init_one_result (drm : drm_device) (mixer : sun8i_mixer) (index : Nat) :
    (sun8i_layer_init_one drm mixer index).1 = construction drm.host mixer index := by
  unfold construction sun8i_layer_init_one
  simp only [drm_device.record]
  split
  · rfl
  · split
    · rfl
    · split <;> rfl

theorem init_one_calls (drm : drm_device) (mixer : sun8i_mixer) (index : Nat) :
    ∃ new, (sun8i_layer_init_one drm mixer index).2.calls = drm.calls ++ new ∧
      ∀ c ∈ new, c.layer_index = some index := by
  unfold sun8i_layer_init_one
  simp only [drm_device.record]
  split
  · exact ⟨[host_call.devm_kzalloc index], rfl, by simp [host_call.layer_index]⟩
  · split
    · exact ⟨[host_call.devm_kzalloc index,
        host_call.drm_universal_plane_init index 0
          (if index < mixer.cfg.vi_num then sun8i_mixer_vi_layer_formats
           else sun8i_mixer_ui_layer_formats)
          (if index < mixer.cfg.vi_num then sun8i_mixer_vi_layer_formats.length
           else sun8i_mixer_ui_layer_formats.length)
          (if index = mixer.cfg.vi_num then DRM_PLANE_TYPE_PRIMARY
           else DRM_PLANE_TYPE_OVERLAY)],
        by simp, by simp [host_call.layer_index]⟩
    · have h : ∃ new, ((drm.calls ++ [host_call.devm_kzalloc index]) ++
          [host_call.drm_universal_plane_init index 0
            (if index < mixer.cfg.vi_num then sun8i_mixer_vi_layer_formats
             else sun8i_mixer_ui_layer_formats)
            (if index < mixer.cfg.vi_num then sun8i_mixer_vi_layer_formats.length
             else sun8i_mixer_ui_layer_formats.length)
            (if index = mixer.cfg.vi_num then DRM_PLANE_TYPE_PRIMARY
             else DRM_PLANE_TYPE_OVERLAY)]) ++
          [host_call.drm_plane_create_zpos_immutable_property index index] =
            drm.calls ++ new ∧ ∀ c ∈ new, c.layer_index = some index :=
        ⟨[host_call.devm_kzalloc index,
          host_call.drm_universal_plane_init index 0
            (if index < mixer.cfg.vi_num then sun8i_mixer_vi_layer_formats
             else sun8i_mixer_ui_layer_formats)
            (if index < mixer.cfg.vi_num then sun8i_mixer_vi_layer_formats.length
             else sun8i_mixer_ui_layer_formats.length)
            (if index = mixer.cfg.vi_num then DRM_PLANE_TYPE_PRIMARY
             else DRM_PLANE_TYPE_OVERLAY),
          host_call.drm_plane_create_zpos_immutable_property index index],
          by simp, by simp [host_call.layer_index]⟩
      split <;> exact h

theorem construction_eq (host : host_outcomes) (mixer : sun8i_mixer) (index : Nat) :
    construction host mixer index =
      if host.devm_kzalloc index = false then .error Errno.ENOMEM
      else match host.drm_universal_plane_init index with
        | .error ret => .error ret
        | .ok () =>
          match host.drm_plane_create_zpos_immutable_property index with
          | .error ret => .error ret
          | .ok () => .ok (built_layer mixer index none) := by
  unfold construction sun8i_layer_init_one
  simp only [drm_device.record]
  cases h1 : host.devm_kzalloc index
  · simp
  · cases h2 : host.drm_universal_plane_init index with
    | error e => simp
    | ok u =>
      cases h3 : host.drm_plane_create_zpos_immutable_property index with
      | error e => simp
      | ok u' =>
        simp [built_layer, formats_take_count]

theorem loop_succ_error (mixer : sun8i_mixer) (r i : Nat)
    (planes : List (Option sun8i_layer)) (drm : drm_device) (e : Errno)
    (h : (sun8i_layer_init_one drm mixer i).1 = .error e) :
    sun8i_layers_init_loop mixer (r + 1) i planes drm =
      (.error e, (sun8i_layer_init_one drm mixer i).2) := by
  rw [sun8i_layers_init_loop]
  rcases hh : sun8i_layer_init_one drm mixer i with ⟨res, drm1⟩
  rw [hh] at h
  simp only at h
  subst h
  rfl

theorem loop_succ_ok (mixer : sun8i_mixer) (r i : Nat)
    (planes : List (Option sun8i_layer)) (drm : drm_device) (layer : sun8i_layer)
    (h : (sun8i_layer_init_one drm mixer i).1 = .ok layer) :
    sun8i_layers_init_loop mixer (r + 1) i planes drm =
      sun8i_layers_init_loop mixer r (i + 1) (planes.set i (some layer))
        (sun8i_layer_init_one drm mixer i).2 := by
  rw [sun8i_layers_init_loop]
  rcases hh : sun8i_layer_init_one drm mixer i with ⟨res, drm1⟩
  rw [hh] at h
  simp only at h
  subst h
  rfl

/-- When every index from `i` on can be built, the loop fills the entries
`i .. i + r - 1` of the array and leaves the others as they were. -/
theorem loop_all_ok (mixer : sun8i_mixer) (host : host_outcomes) :
    ∀ (r i : Nat) (planes : List (Option sun8i_layer)) (drm : drm_device),
      drm.host = host →
      (∀ j, i ≤ j → j < i + r →
        construction host mixer j = .ok (built_layer mixer j none)) →
      ∃ P, (sun8i_layers_init_loop mixer r i planes drm).1 = .ok P ∧
        P.length = planes.length ∧
        (∀ j, i ≤ j → j < i + r → j < planes.length →
          P[j]? = some (some (built_layer mixer j none))) ∧
        (∀ j, ¬ (i ≤ j ∧ j < i + r) → P[j]? = planes[j]?) := by
  intro r
  induction r with
  | zero =>
    intro i planes drm _ _
    refine ⟨planes, rfl, rfl, ?_, fun _ _ => rfl⟩
    intro j h1 h2
    omega
  | succ r ih =>
    intro i planes drm hhost hok
    have hi : (sun8i_layer_init_one drm mixer i).1 = .ok (built_layer mixer i none) := by
      rw [init_one_result, hhost]
      exact hok i (le_refl _) (by omega)
    rw [loop_succ_ok mixer r i planes drm _ hi]
    obtain ⟨P, h1, h2, h3, h4⟩ := ih (i + 1)
      (planes.set i (some (built_layer mixer i none)))
      (sun8i_layer_init_one drm mixer i).2
      (by rw [init_one_host, hhost])
      (fun j hj1 hj2 => hok j (by omega) (by omega))
    refine ⟨P, h1, by rw [h2, List.length_set], ?_, ?_⟩
    · intro j hj1 hj2 hj3
      by_cases hji : j = i
      · subst hji
        rw [h4 j (by omega), List.getElem?_set_self hj3]
      · exact h3 j (by omega) (by omega) (by rw [List.length_set]; exact hj3)
    · intro j hj
      rw [h4 j (by omega), List.getElem?_set_ne (by omega)]

/-- When the loop hands back an array, every index from `i` on was built. -/
theorem loop_ok_only_if (mixer : sun8i_mixer) (host : host_outcomes) :
    ∀ (r i : Nat) (planes : List (Option sun8i_layer)) (drm : drm_device)
      (P : List (Option sun8i_layer)),
      drm.host = host →
      (sun8i_layers_init_loop mixer r i planes drm).1 = .ok P →
      ∀ j, i ≤ j → j < i + r →
        construction host mixer j = .ok (built_layer mixer j none) := by
  intro r
  induction r with
  | zero =>
    intro i planes drm P _ _ j h1 h2
    omega
  | succ r ih =>
    intro i planes drm P hhost hP j hj1 hj2
    cases hres : (sun8i_layer_init_one drm mixer i).1 with
    | error e =>
      rw [loop_succ_error mixer r i planes drm e hres] at hP
      cases hP
    | ok layer =>
      have hc : construction host mixer i = .ok layer := by
        rw [← hhost, ← init_one_result]; exact hres
      have hl : layer = built_layer mixer i none := by
        have := construction_eq host mixer i
        rw [hc] at this
        split at this
        · cases this
        · split at this
          · cases this
          · split at this
            · cases this
            · exact Except.ok.inj this
      rw [loop_succ_ok mixer r i planes drm layer hres] at hP
      by_cases hji : j = i
      · subst hji; rw [hc, hl]
      · exact ih (i + 1) _ _ P (by rw [init_one_host, hhost]) hP j (by omega) (by omega)

/-- When `k` is the first index from `i` on that cannot be built, the loop hands back
the error of `k`, and every host call it made was for an index up to `k`. -/
theorem loop_first_error (mixer : sun8i_mixer) (host : host_outcomes) (k : Nat)
    (e : Errno) (hk : construction host mixer k = .error e) :
    ∀ (r i : Nat) (planes : List (Option sun8i_layer)) (drm : drm_device),
      drm.host = host → i ≤ k → k < i + r →
      (∀ j, i ≤ j → j < k → ∃ layer, construction host mixer j = .ok layer) →
      (sun8i_layers_init_loop mixer r i planes drm).1 = .error e ∧
      ∃ new, (sun8i_layers_init_loop mixer r i planes drm).2.calls = drm.calls ++ new ∧
        ∀ c ∈ new, ∀ j, c.layer_index = some j → j ≤ k := by
  intro r
  induction r with
  | zero =>
    intro i planes drm _ h1 h2
    omega
  | succ r ih =>
    intro i planes drm hhost hik hkr hbefore
    obtain ⟨new1, hnew1, hidx1⟩ := init_one_calls drm mixer i
    by_cases hki : k = i
    · subst hki
      have hres : (sun8i_layer_init_one drm mixer k).1 = .error e := by
        rw [init_one_result, hhost]; exact hk
      rw [loop_succ_error mixer r k planes drm e hres]
      refine ⟨rfl, new1, hnew1, ?_⟩
      intro c hc j hj
      rw [hidx1 c hc] at hj
      exact le_of_eq (Option.some.inj hj).symm
    · obtain ⟨layer, hlayer⟩ := hbefore i (le_refl _) (by omega)
      have hres : (sun8i_layer_init_one drm mixer i).1 = .ok layer := by
        rw [init_one_result, hhost]; exact hlayer
      rw [loop_succ_ok mixer r i planes drm layer hres]
      obtain ⟨h1, new2, hnew2, hidx2⟩ := ih (i + 1) (planes.set i (some layer))
        (sun8i_layer_init_one drm mixer i).2 (by rw [init_one_host, hhost])
        (by omega) (by omega) (fun j hj1 hj2 => hbefore j (by omega) hj2)
      refine ⟨h1, new1 ++ new2, by rw [hnew2, hnew1, List.append_assoc], ?_⟩
      intro c hc j hj
      rcases List.mem_append.mp hc with hc | hc
      · rw [hidx1 c hc] at hj
        have : i = j := Option.some.inj hj
        omega
      · exact hidx2 c hc j hj

theorem full_planes_of_getElem (mixer : sun8i_mixer) (n : Nat)
    (P : List (Option sun8i_layer)) (hlen : P.length = n + 1)
    (hsome : ∀ j, j < n → P[j]? = some (some (built_layer mixer j none)))
    (hlast : P[n]? = some none) : P = full_planes mixer n := by
  apply List.ext_getElem?
  intro j
  unfold full_planes
  rcases Nat.lt_trichotomy j n with h | h | h
  · rw [hsome j h, List.getElem?_append_left (by simp; exact h)]
    simp [h]
  · subst h
    rw [hlast, List.getElem?_append_right (by simp)]
    simp
  · rw [List.getElem?_eq_none (by omega), List.getElem?_eq_none (by simp; omega)]

theorem vi_formats_ne_ui_formats :
    sun8i_mixer_vi_layer_formats ≠ sun8i_mixer_ui_layer_formats := by decide

theorem layers_init_alloc_ok (drm : drm_device) (mixer : sun8i_mixer)
    (halloc : drm.host.devm_kcalloc = true) :
    sun8i_layers_init drm mixer =
      sun8i_layers_init_loop mixer (mixer.cfg.vi_num + mixer.cfg.ui_num) 0
        (List.replicate (mixer.cfg.vi_num + mixer.cfg.ui_num + 1) none)
        (drm.record (host_call.devm_kcalloc (mixer.cfg.vi_num + mixer.cfg.ui_num + 1))) := by
  simp [sun8i_layers_init, drm_device.record, halloc]

theorem layers_init_full (drm : drm_device) (mixer : sun8i_mixer)
    (halloc : drm.host.devm_kcalloc = true)
    (hbuild : ∀ i, i < mixer.cfg.vi_num + mixer.cfg.ui_num →
      construction drm.host mixer i = .ok (built_layer mixer i none)) :
    (sun8i_layers_init drm mixer).1 =
      .ok (full_planes mixer (mixer.cfg.vi_num + mixer.cfg.ui_num)) := by
  rw [layers_init_alloc_ok drm mixer halloc]
  obtain ⟨P, h1, h2, h3, h4⟩ := loop_all_ok mixer drm.host
    (mixer.cfg.vi_num + mixer.cfg.ui_num) 0
    (List.replicate (mixer.cfg.vi_num + mixer.cfg.ui_num + 1) none)
    (drm.record (host_call.devm_kcalloc (mixer.cfg.vi_num + mixer.cfg.ui_num + 1)))
    rfl (fun j _ hj => hbuild j (by omega))
  rw [h1]
  congr 1
  rw [List.length_replicate] at h2
  apply full_planes_of_getElem mixer _ P h2
  · intro j hj
    exact h3 j (Nat.zero_le _) (by omega) (by rw [List.length_replicate]; omega)
  · rw [h4 _ (by omega), List.getElem?_replicate]
    simp

theorem full_planes_getElem (mixer : sun8i_mixer) (n i : Nat) (hi : i < n) :
    (full_planes mixer n)[i]? = some (some (built_layer mixer i none)) := by
  unfold full_planes
  rw [List.getElem?_append_left (by simp; exact hi)]
  simp [hi]

theorem full_planes_layer (mixer : sun8i_mixer) (n i : Nat) (layer : sun8i_layer)
    (h : (full_planes mixer n)[i]? = some (some layer)) :
    i < n ∧ layer = built_layer mixer i none := by
  rcases Nat.lt_trichotomy i n with hi | hi | hi
  · rw [full_planes_getElem mixer n i hi] at h
    exact ⟨hi, ((Option.some.inj (Option.some.inj h))).symm⟩
  · subst hi
    unfold full_planes at h
    rw [List.getElem?_append_right (by simp)] at h
    simp at h
  · unfold full_planes at h
    rw [List.getElem?_eq_none (by simp; omega)] at h
    cases h

theorem full_planes_count (mixer : sun8i_mixer) (n : Nat) :
    ((full_planes mixer n).filterMap id).length = n := by
  unfold full_planes
  rw [List.filterMap_append, List.filterMap_map]
  have h : (id ∘ fun i => some (built_layer mixer i none)) =
      some ∘ (fun i => built_layer mixer i none) := rfl
  rw [h, List.filterMap_eq_map]
  simp

/-! ## Registry: the success path (C1) -/

/-- C1: for all counts `vi_num` and `ui_num`, when the plane array can be allocated and
every per-layer construction step succeeds, `sun8i_layers_init` hands back an array with
exactly `vi_num + ui_num` layers followed by one NULL entry; the layer at position `i`
has id `i`, has the Video format table iff `i < vi_num` (and the UI table otherwise), and
is Primary iff `i = vi_num` and Overlay otherwise; with `ui_num = 0` no layer is
Primary. -/
theorem layers_init_builds_all (drm : drm_device) (mixer : sun8i_mixer)
    (halloc : drm.host.devm_kcalloc = true)
    (hbuild : ∀ i, i < mixer.cfg.vi_num + mixer.cfg.ui_num →
      drm.host.devm_kzalloc i = true ∧
      drm.host.drm_universal_plane_init i = .ok () ∧
      drm.host.drm_plane_create_zpos_immutable_property i = .ok ()) :
    ∃ planes : List (Option sun8i_layer),
      (sun8i_layers_init drm mixer).1 = .ok planes ∧
      planes.length = mixer.cfg.vi_num + mixer.cfg.ui_num + 1 ∧
      planes[mixer.cfg.vi_num + mixer.cfg.ui_num]? = some none ∧
      (planes.filterMap id).length = mixer.cfg.vi_num + mixer.cfg.ui_num ∧
      (∀ i, i < mixer.cfg.vi_num + mixer.cfg.ui_num →
        ∃ layer : sun8i_layer, planes[i]? = some (some layer) ∧
          layer.id = i ∧
          (layer.plane.format_types = sun8i_mixer_vi_layer_formats ↔
            i < mixer.cfg.vi_num) ∧
          (layer.plane.format_types = sun8i_mixer_ui_layer_formats ↔
            ¬ i < mixer.cfg.vi_num) ∧
          (layer.plane.type = DRM_PLANE_TYPE_PRIMARY ↔ i = mixer.cfg.vi_num) ∧
          (layer.plane.type = DRM_PLANE_TYPE_OVERLAY ↔ i ≠ mixer.cfg.vi_num)) ∧
      (mixer.cfg.ui_num = 0 → ∀ (i : Nat) (layer : sun8i_layer),
        planes[i]? = some (some layer) →
        layer.plane.type = DRM_PLANE_TYPE_OVERLAY) := by
  have hfull := layers_init_full drm mixer halloc (by
    intro i hi
    obtain ⟨h1, h2, h3⟩ := hbuild i hi
    rw [construction_eq, h1, h2, h3]
    rfl)
  refine ⟨_, hfull, ?_, ?_, full_planes_count mixer _, ?_, ?_⟩
  · simp [full_planes]
  · unfold full_planes
    rw [List.getElem?_append_right (by simp)]
    simp
  · intro i hi
    refine ⟨built_layer mixer i none, full_planes_getElem mixer _ i hi, rfl, ?_, ?_, ?_, ?_⟩
    · simp only [built_layer]
      constructor
      · intro h
        by_contra hc
        rw [if_neg hc] at h
        exact vi_formats_ne_ui_formats h.symm
      · intro h; rw [if_pos h]
    · simp only [built_layer]
      constructor
      · intro h hc
        rw [if_pos hc] at h
        exact vi_formats_ne_ui_formats h
      · intro h; rw [if_neg h]
    · simp only [built_layer]
      constructor
      · intro h
        by_contra hc
        rw [if_neg hc] at h
        cases h
      · intro h; rw [if_pos h]
    · simp only [built_layer]
      constructor
      · intro h hc
        rw [if_pos hc] at h
        cases h
      · intro h; rw [if_neg h]
  · intro hui i layer h
    obtain ⟨hi, hl⟩ := full_planes_layer mixer _ i layer h
    subst hl
    simp only [built_layer]
    rw [if_neg (by omega)]

/-- C1 at the scenario of the specification: `vi_num = 2`, `ui_num = 1` on a host where
everything succeeds gives three layers; positions 0 and 1 are Video and Overlay,
position 2 is UI and Primary. -/
theorem layers_init_builds_all_witness :
    ∃ planes : List (Option sun8i_layer),
      (sun8i_layers_init { host := demo_host_ok, calls := [] } demo_mixer).1 = .ok planes ∧
      planes.length = 4 ∧
      (planes.filterMap id).length = 3 ∧
      (∃ layer : sun8i_layer, planes[0]? = some (some layer) ∧ layer.id = 0 ∧
        layer.plane.format_types = sun8i_mixer_vi_layer_formats ∧
        layer.plane.type = DRM_PLANE_TYPE_OVERLAY) ∧
      (∃ layer : sun8i_layer, planes[1]? = some (some layer) ∧ layer.id = 1 ∧
        layer.plane.format_types = sun8i_mixer_vi_layer_formats ∧
        layer.plane.type = DRM_PLANE_TYPE_OVERLAY) ∧
      (∃ layer : sun8i_layer, planes[2]? = some (some layer) ∧ layer.id = 2 ∧
        layer.plane.format_types = sun8i_mixer_ui_layer_formats ∧
        layer.plane.type = DRM_PLANE_TYPE_PRIMARY) := by
  obtain ⟨planes, h1, h2, -, h4, h5, -⟩ :=
    layers_init_builds_all { host := demo_host_ok, calls := [] } demo_mixer rfl
      (fun _ _ => ⟨rfl, rfl, rfl⟩)
  refine ⟨planes, h1, h2, h4, ?_, ?_, ?_⟩
  · obtain ⟨l, a, b, c, -, -, d⟩ := h5 0 (by decide)
    exact ⟨l, a, b, c.mpr (by decide), d.mpr (by decide)⟩
  · obtain ⟨l, a, b, c, -, -, d⟩ := h5 1 (by decide)
    exact ⟨l, a, b, c.mpr (by decide), d.mpr (by decide)⟩
  · obtain ⟨l, a, b, -, c, d, -⟩ := h5 2 (by decide)
    exact ⟨l, a, b, c.mpr (by decide), d.mpr (by decide)⟩

/-- Among the indices that cannot be built there is a lowest one. -/
theorem lowest_failing_index (host : host_outcomes) (mixer : sun8i_mixer) :
    ∀ (i : Nat) (e' : Errno), construction host mixer i = .error e' →
      ∃ k e, k ≤ i ∧ construction host mixer k = .error e ∧
        ∀ j, j < k → ∃ layer, construction host mixer j = .ok layer := by
  intro i
  induction i using Nat.strong_induction_on with
  | _ i ih =>
    intro e' hi
    by_cases hall : ∀ j, j < i → ∃ layer, construction host mixer j = .ok layer
    · exact ⟨i, e', le_refl _, hi, hall⟩
    · push_neg at hall
      obtain ⟨j, hj, hne⟩ := hall
      cases hc : construction host mixer j with
      | ok layer => exact absurd hc (hne layer)
      | error e'' =>
        obtain ⟨k, e, hk1, hk2, hk3⟩ := ih j hj e'' hc
        exact ⟨k, e, by omega, hk2, hk3⟩

/-! ## Registry: failures (C10) -/

/-- C10: `sun8i_layers_init` hands back the plane array only if the array was allocated
and the layer of every index `0 .. n-1` was built, and the array is then the full
ordered one; when the array was allocated and `k` is the lowest index whose construction
fails, the result is the error of `k`, no array, and no host call was made for an index
above `k`; whenever the construction of some index fails there is such a lowest index;
when the array cannot be allocated the result is `-ENOMEM` and no layer is
attempted. -/
theorem layers_init_all_or_nothing (drm : drm_device) (mixer : sun8i_mixer) :
    (∀ planes, (sun8i_layers_init drm mixer).1 = .ok planes →
      drm.host.devm_kcalloc = true ∧
      (∀ i, i < mixer.cfg.vi_num + mixer.cfg.ui_num →
        construction drm.host mixer i = .ok (built_layer mixer i none)) ∧
      planes = full_planes mixer (mixer.cfg.vi_num + mixer.cfg.ui_num)) ∧
    (∀ k e, drm.host.devm_kcalloc = true →
      k < mixer.cfg.vi_num + mixer.cfg.ui_num →
      (∀ j, j < k → ∃ layer, construction drm.host mixer j = .ok layer) →
      construction drm.host mixer k = .error e →
      (sun8i_layers_init drm mixer).1 = .error e ∧
      ∃ new, (sun8i_layers_init drm mixer).2.calls = drm.calls ++ new ∧
        ∀ c ∈ new, ∀ j, c.layer_index = some j → j ≤ k) ∧
    (∀ i e', drm.host.devm_kcalloc = true →
      i < mixer.cfg.vi_num + mixer.cfg.ui_num →
      construction drm.host mixer i = .error e' →
      ∃ k e, k ≤ i ∧ construction drm.host mixer k = .error e ∧
        (∀ j, j < k → ∃ layer, construction drm.host mixer j = .ok layer) ∧
        (sun8i_layers_init drm mixer).1 = .error e) ∧
    (drm.host.devm_kcalloc = false →
      (sun8i_layers_init drm mixer).1 = .error Errno.ENOMEM ∧
      (sun8i_layers_init drm mixer).2.calls = drm.calls ++
        [host_call.devm_kcalloc (mixer.cfg.vi_num + mixer.cfg.ui_num + 1)]) := by
  have hfirst : ∀ k e, drm.host.devm_kcalloc = true →
      k < mixer.cfg.vi_num + mixer.cfg.ui_num →
      (∀ j, j < k → ∃ layer, construction drm.host mixer j = .ok layer) →
      construction drm.host mixer k = .error e →
      (sun8i_layers_init drm mixer).1 = .error e ∧
      ∃ new, (sun8i_layers_init drm mixer).2.calls = drm.calls ++ new ∧
        ∀ c ∈ new, ∀ j, c.layer_index = some j → j ≤ k := ?first
  refine ⟨?_, hfirst, ?_, ?_⟩
  case first =>
    intro k e halloc hk hbefore hfail
    rw [layers_init_alloc_ok drm mixer halloc]
    obtain ⟨h1, new, h2, h3⟩ := loop_first_error mixer drm.host k e hfail
      (mixer.cfg.vi_num + mixer.cfg.ui_num) 0
      (List.replicate (mixer.cfg.vi_num + mixer.cfg.ui_num + 1) none)
      (drm.record (host_call.devm_kcalloc (mixer.cfg.vi_num + mixer.cfg.ui_num + 1)))
      rfl (Nat.zero_le _) (by omega) (fun j _ hj => hbefore j hj)
    refine ⟨h1, host_call.devm_kcalloc (mixer.cfg.vi_num + mixer.cfg.ui_num + 1) :: new,
      ?_, ?_⟩
    · rw [h2]
      simp [drm_device.record]
    · intro c hc j hj
      rcases List.mem_cons.mp hc with hc | hc
      · subst hc
        cases hj
      · exact h3 c hc j hj
  · intro planes hP
    cases halloc : drm.host.devm_kcalloc with
    | false =>
      simp [sun8i_layers_init, drm_device.record, halloc] at hP
    | true =>
      have hall : ∀ i, i < mixer.cfg.vi_num + mixer.cfg.ui_num →
          construction drm.host mixer i = .ok (built_layer mixer i none) := by
        intro i hi
        rw [layers_init_alloc_ok drm mixer halloc] at hP
        exact loop_ok_only_if mixer drm.host _ 0 _
          (drm.record (host_call.devm_kcalloc (mixer.cfg.vi_num + mixer.cfg.ui_num + 1)))
          planes rfl hP i (Nat.zero_le _) (by rw [Nat.zero_add]; exact hi)
      refine ⟨rfl, hall, ?_⟩
      have := layers_init_full drm mixer halloc hall
      rw [hP] at this
      exact Except.ok.inj this
  · intro i e' halloc hi hfail
    obtain ⟨k, e, hk1, hk2, hk3⟩ := lowest_failing_index drm.host mixer i e' hfail
    exact ⟨k, e, hk1, hk2, hk3, (hfirst k e halloc (by omega) hk3 hk2).1⟩
  · intro halloc
    simp [sun8i_layers_init, drm_device.record, halloc]

/-- C10 at a concrete input: `vi_num = 2`, `ui_num = 1` on a host where the plane
registration of index 1 fails with error 5: the result is that error, and the host
calls made are the array allocation, the three calls for index 0 and the two calls for
index 1. -/
theorem layers_init_all_or_nothing_witness :
    (sun8i_layers_init { host := demo_host_fail, calls := [] } demo_mixer).1 =
      .error (Errno.other 5) ∧
    (∃ new, (sun8i_layers_init { host := demo_host_fail, calls := [] } demo_mixer).2.calls =
        [] ++ new ∧
      ∀ c ∈ new, ∀ j, c.layer_index = some j → j ≤ 1) ∧
    ((sun8i_layers_init { host := demo_host_fail, calls := [] } demo_mixer).2.calls.map
        host_call.layer_index = [none, some 0, some 0, some 0, some 1, some 1]) := by
  obtain ⟨h1, h2⟩ := (layers_init_all_or_nothing
    { host := demo_host_fail, calls := [] } demo_mixer).2.1 1 (Errno.other 5) rfl
    (by decide) (fun j hj => ⟨built_layer demo_mixer j none, by
      have : j = 0 := by omega
      subst this
      rfl⟩) rfl
  exact ⟨h1, h2, rfl⟩

/-! ## Format tables: which table, and their sizes (C7) -/

/-- C7 as stated fails on the size of the Video table: it has 32 pairwise distinct
entries, not 16. -/
theorem vi_layer_formats_count_counterexample :
    sun8i_mixer_vi_layer_formats.length ≠ 16 ∧
    sun8i_mixer_vi_layer_formats.length = 32 ∧
    sun8i_mixer_vi_layer_formats.Nodup := by decide

/-- C7, amended: when the layer of index `index` can be built, its supported-format
list is the Video table when `index < vi_num` and the UI table otherwise; the Video
table holds exactly 32 formats (16 RGB formats followed by 16 YUV formats) and the UI
table exactly 20 (all of them RGB); neither table repeats a format. -/
theorem init_one_format_tables (drm : drm_device) (mixer : sun8i_mixer) (index : Nat)
    (hlayer : drm.host.devm_kzalloc index = true)
    (hplane : drm.host.drm_universal_plane_init index = .ok ())
    (hzpos : drm.host.drm_plane_create_zpos_immutable_property index = .ok ()) :
    (∃ layer : sun8i_layer,
      (sun8i_layer_init_one drm mixer index).1 = .ok layer ∧
      layer.plane.format_types =
        (if index < mixer.cfg.vi_num then sun8i_mixer_vi_layer_formats
         else sun8i_mixer_ui_layer_formats)) ∧
    sun8i_mixer_vi_layer_formats.length = 32 ∧
    (sun8i_mixer_vi_layer_formats.take 16).all is_rgb = true ∧
    (sun8i_mixer_vi_layer_formats.drop 16).all is_yuv = true ∧
    sun8i_mixer_ui_layer_formats.length = 20 ∧
    sun8i_mixer_ui_layer_formats.all is_rgb = true ∧
    sun8i_mixer_vi_layer_formats.Nodup ∧ sun8i_mixer_ui_layer_formats.Nodup := by
  refine ⟨⟨built_layer mixer index none, ?_, rfl⟩, by decide, by decide, by decide,
    by decide, by decide, by decide, by decide⟩
  rw [init_one_result, construction_eq, hlayer, hplane, hzpos]
  rfl

/-- C7 at concrete inputs: on the demo mixer (`vi_num = 2`) and a host where everything
succeeds, the layer of index 1 gets the Video table and the layer of index 2 the UI
table. -/
theorem init_one_format_tables_witness :
    (∃ layer : sun8i_layer,
      (sun8i_layer_init_one { host := demo_host_ok, calls := [] } demo_mixer 1).1 =
        .ok layer ∧
      layer.plane.format_types = sun8i_mixer_vi_layer_formats) ∧
    (∃ layer : sun8i_layer,
      (sun8i_layer_init_one { host := demo_host_ok, calls := [] } demo_mixer 2).1 =
        .ok layer ∧
      layer.plane.format_types = sun8i_mixer_ui_layer_formats) :=
  ⟨(init_one_format_tables { host := demo_host_ok, calls := [] } demo_mixer 1
      rfl rfl rfl).1,
   (init_one_format_tables { host := demo_host_ok, calls := [] } demo_mixer 2
      rfl rfl rfl).1⟩

/-! ## Format tables: alpha formats and their opaque counterparts (C8) -/

/-- C8: no format of the Video table that has an alpha channel has its opaque
counterpart in the Video table (the alpha formats of the table are the eight 16-bit
ones); the UI table holds ARGB8888, ABGR8888, RGBA8888 and BGRA8888 each together with
its opaque counterpart XRGB8888, XBGR8888, RGBX8888, BGRX8888; and every RGB format of
the Video table is in the UI table. -/
theorem vi_layer_formats_no_alpha_with_opaque :
    (∀ f ∈ sun8i_mixer_vi_layer_formats, has_alpha f = true →
      ∀ g ∈ opaque_analog f, g ∉ sun8i_mixer_vi_layer_formats) ∧
    sun8i_mixer_vi_layer_formats.filter has_alpha =
      [DRM_FORMAT_ABGR1555, DRM_FORMAT_ABGR4444, DRM_FORMAT_ARGB1555,
       DRM_FORMAT_ARGB4444, DRM_FORMAT_BGRA5551, DRM_FORMAT_BGRA4444,
       DRM_FORMAT_RGBA4444, DRM_FORMAT_RGBA5551] ∧
    (has_alpha DRM_FORMAT_ARGB8888 = true ∧
      opaque_analog DRM_FORMAT_ARGB8888 = some DRM_FORMAT_XRGB8888 ∧
      DRM_FORMAT_ARGB8888 ∈ sun8i_mixer_ui_layer_formats ∧
      DRM_FORMAT_XRGB8888 ∈ sun8i_mixer_ui_layer_formats) ∧
    (has_alpha DRM_FORMAT_ABGR8888 = true ∧
      opaque_analog DRM_FORMAT_ABGR8888 = some DRM_FORMAT_XBGR8888 ∧
      DRM_FORMAT_ABGR8888 ∈ sun8i_mixer_ui_layer_formats ∧
      DRM_FORMAT_XBGR8888 ∈ sun8i_mixer_ui_layer_formats) ∧
    (has_alpha DRM_FORMAT_RGBA8888 = true ∧
      opaque_analog DRM_FORMAT_RGBA8888 = some DRM_FORMAT_RGBX8888 ∧
      DRM_FORMAT_RGBA8888 ∈ sun8i_mixer_ui_layer_formats ∧
      DRM_FORMAT_RGBX8888 ∈ sun8i_mixer_ui_layer_formats) ∧
    (has_alpha DRM_FORMAT_BGRA8888 = true ∧
      opaque_analog DRM_FORMAT_BGRA8888 = some DRM_FORMAT_BGRX8888 ∧
      DRM_FORMAT_BGRA8888 ∈ sun8i_mixer_ui_layer_formats ∧
      DRM_FORMAT_BGRX8888 ∈ sun8i_mixer_ui_layer_formats) ∧
    (∀ f ∈ sun8i_mixer_vi_layer_formats, is_rgb f = true →
      f ∈ sun8i_mixer_ui_layer_formats) := by
  decide

end Sun8iLayer
